import Mathlib

/-!
# Verification of the dashboard persistence layer and alert-evaluator factory

Shallow embedding of two pieces of a Grafana fork:

* `pkg/services/alerting/conditions/evaluator.go` — the threshold alert
  evaluator factory (`NewAlertEvaluator`);
* the sqlstore dashboard file — `SaveDashboard`, `setHasAcl`,
  `DeleteDashboard` and the relational state they mutate.

The relational store is embedded as explicit lists of rows; each SQL
statement of the Go source becomes an explicit transformation of that
state.  `inTransaction` is embedded as: the final state is the original
state whenever the body returns an error (rollback), and the body's final
state otherwise (commit).
-/

set_option autoImplicit false

namespace Grafana

/-! ## Alert evaluator (`evaluator.go`) -/

/-- An element of the `params` JSON array of an evaluator model.  In the Go
source the elements are `interface{}` values; the factory only distinguishes
`json.Number` values (whose numeric value we keep as a rational) from
everything else (`.other`), via the type assertion `params[i].(json.Number)`. -/
inductive JParam where
  | num (q : ℚ)
  | other
  deriving Repr, DecidableEq

/-- The part of the `simplejson` model read by `NewAlertEvaluator`:
`model.Get("type").MustString()` (empty string when absent or not a string)
and `model.Get("params").MustArray()` (empty array when absent). -/
structure EvalModel where
  typ : String
  params : List JParam
  deriving Repr, DecidableEq

/-- `AlertEvaluator` values produced by the factory: either a
`DefaultAlertEvaluator{Type, Threshold}` or a
`RangedAlertEvaluator{Type, Lower, Upper}`. -/
inductive AlertEvaluator where
  | default (typ : String) (threshold : ℚ)
  | ranged (typ : String) (lower upper : ℚ)
  deriving Repr, DecidableEq

/-- Outcome of `NewAlertEvaluator`: an evaluator, a
`alerting.ValidationError{Reason}`, or a Go runtime panic (index out of
range), which the embedding makes explicit. -/
inductive NewEvalResult where
  | ok (e : AlertEvaluator)
  | validationError (reason : String)
  | panicked
  deriving Repr, DecidableEq

/-- `defaultTypes` from the source. -/
def defaultTypes : List String := ["gt", "lt"]

/-- `rangedTypes` from the source. -/
def rangedTypes : List String := ["within_range", "outside_range"]

/-- `inSlice` from the source. -/
def inSlice (a : String) (list : List String) : Bool :=
  list.any (fun b => b == a)

/-- `NewAlertEvaluator` from the source.  Note that after the
`len(params) == 0` guard the source accesses `params[0]` (safe) and, on the
ranged branch, `params[1]` with no bounds check: when `params` has exactly
one element that access panics, embedded here as `.panicked`. -/
def NewAlertEvaluator (model : EvalModel) : NewEvalResult :=
  if model.typ = "" then
    .validationError "Evaluator missing type property"
  else if model.params.length = 0 then
    .validationError "Evaluator missing threshold parameter"
  else
    match model.params[0]? with
    | none => .panicked
    | some firstParam =>
      match firstParam with
      | .other => .validationError "Evaluator has invalid parameter"
      | .num first =>
        if inSlice model.typ defaultTypes then
          .ok (.default model.typ first)
        else if inSlice model.typ rangedTypes then
          match model.params[1]? with
          | none => .panicked
          | some JParam.other => .validationError "Evaluator has invalid second parameter"
          | some (JParam.num second) => .ok (.ranged model.typ first second)
        else
          .validationError "Evaludator invalid evaluator type"

/-! ## Dashboard persistence data model (sqlstore) -/

/-- The slice of the opaque JSON body (`dash.Data`) that the persistence
layer reads or writes: the mirrored `version` field
(`dash.Data.Set("version", ...)`) and the tag list (`dash.GetTags()`). -/
structure DashboardData where
  version : Int
  tags : List String
  deriving Repr, DecidableEq

/-- A canonical `dashboard` table row (`m.Dashboard`), restricted to the
columns this file touches. -/
structure Dashboard where
  id : Int
  orgId : Int
  slug : String
  title : String
  version : Int
  folderId : Int
  isFolder : Bool
  hasAcl : Bool
  pluginId : String
  updatedBy : Int
  data : DashboardData
  deriving Repr, DecidableEq

/-- A `dashboard_version` table row (`m.DashboardVersion`).  The wall-clock
`Created` timestamp is outside the embedding. -/
structure DashboardVersion where
  dashboardId : Int
  parentVersion : Int
  restoredFrom : Int
  version : Int
  createdBy : Int
  message : String
  data : DashboardData
  deriving Repr, DecidableEq

/-- A `dashboard_tag` table row. -/
structure DashboardTag where
  dashboardId : Int
  term : String
  deriving Repr, DecidableEq

/-- The relational state touched by this file.  `dashboard_acl`, `star` and
`playlist_item` rows are kept only as the dashboard ids they reference,
which is all the SQL here reads (`SELECT 1 from dashboard_acl WHERE
dashboard_id =?`, `DELETE FROM star WHERE dashboard_id = ?`,
`DELETE FROM playlist_item WHERE type = 'dashboard_by_id' AND value = ?`).
`nextId` models the auto-increment id the engine assigns on insert. -/
structure DB where
  dashboards : List Dashboard
  versions : List DashboardVersion
  tags : List DashboardTag
  aclRows : List Int
  stars : List Int
  playlistItems : List Int
  nextId : Int
  deriving Repr, DecidableEq

/-- `sess.Where("id=? AND org_id=?", id, orgId).Get(&existing)`: the first
row matching both columns, if any. -/
def findDashById (db : DB) (id orgId : Int) : Option Dashboard :=
  db.dashboards.find? (fun r => r.id == id && r.orgId == orgId)

/-- `sess.Where("org_id=? AND slug=?", orgId, slug).Get(&sameTitle)`. -/
def findDashBySlug (db : DB) (orgId : Int) (slug : String) : Option Dashboard :=
  db.dashboards.find? (fun r => r.orgId == orgId && r.slug == slug)

/-- `m.SaveDashboardCommand`.  `dashboard` is the model produced by
`cmd.GetDashboardModel()` (defined outside this file); the save protocol
takes it as given. -/
structure SaveDashboardCommand where
  dashboard : Dashboard
  overwrite : Bool
  message : String
  restoredFrom : Int
  deriving Repr, DecidableEq

/-- The error values `SaveDashboard` can return
(`m.ErrDashboardNotFound`, `m.ErrDashboardVersionMismatch`,
`m.UpdatePluginDashboardError{PluginId}`,
`m.ErrDashboardWithSameNameExists`). -/
inductive SaveError where
  | notFound
  | versionMismatch
  | pluginDashboard (pluginId : String)
  | sameNameExists
  deriving Repr, DecidableEq

/-- `setHasAcl` from the source.  Note the first query is
`sess.Where("folder_id=?", dash.FolderId).Get(&parent)`: it fetches the
first stored row whose *folder_id* column equals the candidate's folder id
(i.e. some dashboard already inside that folder), not the folder row
itself.  The second branch runs only when `dash.Id > 0`. -/
def setHasAcl (db : DB) (dash : Dashboard) : Dashboard :=
  let dash :=
    if dash.folderId > 0 then
      match db.dashboards.find? (fun r => r.folderId == dash.folderId) with
      | some parent => if parent.hasAcl then { dash with hasAcl := true } else dash
      | none => dash
    else dash
  if dash.id > 0 then
    if db.aclRows.any (fun a => a == dash.id) then { dash with hasAcl := true } else dash
  else dash

/-- Lines 51–54 of `SaveDashboard`: the plugin-owned guard, applied to the
(possibly version-adopted) candidate. -/
def checkPlugin (cmd : SaveDashboardCommand) (existing dash : Dashboard) :
    Except SaveError Dashboard :=
  if existing.pluginId != "" && !cmd.overwrite then
    .error (.pluginDashboard existing.pluginId)
  else .ok dash

/-- Lines 33–55 of `SaveDashboard`: existence check, version-conflict
check, plugin-owned guard (in that order), producing the possibly
version-adopted candidate. -/
def checkExisting (db : DB) (cmd : SaveDashboardCommand) (dash : Dashboard) :
    Except SaveError Dashboard :=
  if dash.id > 0 then
    match findDashById db dash.id dash.orgId with
    | none => .error .notFound
    | some existing =>
      if dash.version != existing.version then
        if cmd.overwrite then checkPlugin cmd existing { dash with version := existing.version }
        else .error .versionMismatch
      else checkPlugin cmd existing dash
  else .ok dash

/-- Lines 57–72 of `SaveDashboard`: slug-collision check and, under
`overwrite`, adoption of the colliding row's id and version. -/
def checkSameTitle (db : DB) (cmd : SaveDashboardCommand) (dash : Dashboard) :
    Except SaveError Dashboard :=
  match findDashBySlug db dash.orgId dash.slug with
  | none => .ok dash
  | some sameTitle =>
    if dash.id != sameTitle.id then
      if cmd.overwrite then .ok { dash with id := sameTitle.id, version := sameTitle.version }
      else .error .sameNameExists
    else .ok dash

/-- Lines 79–99 of `SaveDashboard`: the canonical write.  Insert branch
(`dash.Id == 0`): set version to 1, mirror it into the body, insert the
row (the engine assigns `nextId` as its id and xorm writes it back into
`dash`; `sess.Insert` affects one row).  Update branch: increment the
version, mirror it, and run
`sess.MustCols("folder_id", "has_acl").Id(dash.Id).Update(dash)`, which
rewrites the row whose `id` column equals `dash.Id`; zero affected rows
yields `ErrDashboardNotFound`. -/
def writeDashboard (db : DB) (dash : Dashboard) : Except SaveError (Dashboard × DB) :=
  if dash.id == 0 then
    let dash := { dash with version := 1 }
    let dash := { dash with data := { dash.data with version := dash.version } }
    let dash := { dash with id := db.nextId }
    .ok (dash, { db with dashboards := db.dashboards ++ [dash], nextId := db.nextId + 1 })
  else
    let dash := { dash with version := dash.version + 1 }
    let dash := { dash with data := { dash.data with version := dash.version } }
    if db.dashboards.any (fun r => r.id == dash.id) then
      let rows := db.dashboards.map (fun r => if r.id == dash.id then dash else r)
      .ok (dash, { db with dashboards := rows })
    else .error .notFound

/-- Lines 101–110 of the source: the `m.DashboardVersion` row built after
the canonical write, from the pre-write version, the command and the
written dashboard. -/
def mkVersionRow (cmd : SaveDashboardCommand) (parentVersion : Int) (dash : Dashboard) :
    DashboardVersion :=
  { dashboardId := dash.id
    parentVersion := parentVersion
    restoredFrom := cmd.restoredFrom
    version := dash.version
    createdBy := dash.updatedBy
    message := cmd.message
    data := dash.data }

/-- Lines 119–133 of the source: wholesale tag replacement —
`DELETE FROM dashboard_tag WHERE dashboard_id=?`, then one insert per tag
of the body (`dash.GetTags()`). -/
def replaceTags (db : DB) (dash : Dashboard) : DB :=
  let db := { db with tags := db.tags.filter (fun t => t.dashboardId != dash.id) }
  { db with tags := db.tags ++ dash.data.tags.map (fun t => ⟨dash.id, t⟩) }

/-- The body of the `inTransaction` closure in `SaveDashboard` (lines
28–136): checks, ACL derivation, capture of the pre-write version
(`parentVersion := dash.Version`, line 79), canonical write,
version-history append (`sess.Insert(dashVersion)` affects one row), and
tag replacement. -/
def saveBody (db : DB) (cmd : SaveDashboardCommand) : Except SaveError (Dashboard × DB) :=
  match checkExisting db cmd cmd.dashboard with
  | .error e => .error e
  | .ok dash1 =>
    match checkSameTitle db cmd dash1 with
    | .error e => .error e
    | .ok dash2 =>
      let dash := setHasAcl db dash2
      let parentVersion := dash.version
      match writeDashboard db dash with
      | .error e => .error e
      | .ok (dashW, db1) =>
        let db2 := { db1 with versions := db1.versions ++ [mkVersionRow cmd parentVersion dashW] }
        .ok (dashW, replaceTags db2 dashW)

/-- `SaveDashboard`: the transaction wrapper.  On error the transaction
rolls back, so the resulting state is the original `db`; on success it
commits the body's final state, and `cmd.Result` is the written dashboard
(the first component). -/
def SaveDashboard (db : DB) (cmd : SaveDashboardCommand) :
    Except SaveError Dashboard × DB :=
  match saveBody db cmd with
  | .error e => (.error e, db)
  | .ok (dash, db') => (.ok dash, db')

/-! ## DeleteDashboard -/

/-- `m.DeleteDashboardCommand`. -/
structure DeleteDashboardCommand where
  id : Int
  orgId : Int
  deriving Repr, DecidableEq

/-- Errors `DeleteDashboard` can return: `m.ErrDashboardNotFound` or a
database error raised by one of the delete statements. -/
inductive DeleteError where
  | notFound
  | dbError (msg : String)
  deriving Repr, DecidableEq

/-- Effect of the i-th statement of the `deletes` list in
`DeleteDashboard` (lines 374–381), each executed with the dashboard's id
as its sole parameter. -/
def deleteStmt (dashId : Int) (i : Nat) (db : DB) : DB :=
  match i with
  | 0 => { db with tags := db.tags.filter (fun t => t.dashboardId != dashId) }
  | 1 => { db with stars := db.stars.filter (fun s => s != dashId) }
  | 2 => { db with dashboards := db.dashboards.filter (fun r => r.id != dashId) }
  | 3 => { db with playlistItems := db.playlistItems.filter (fun p => p != dashId) }
  | 4 => { db with versions := db.versions.filter (fun v => v.dashboardId != dashId) }
  | _ => { db with dashboards := db.dashboards.filter (fun r => r.folderId != dashId) }

/-- One pass of the `for _, sql := range deletes` loop over the remaining
statement indices: each `sess.Exec` may fail with a database error
(injected through `stmtErr`), which aborts the loop with that error;
otherwise the statement's effect is applied and the loop continues. -/
def runDeletesAux (dashId : Int) (stmtErr : Nat → Option String) :
    DB → List Nat → Except DeleteError DB
  | db, [] => .ok db
  | db, i :: rest =>
    match stmtErr i with
    | some e => .error (.dbError e)
    | none => runDeletesAux dashId stmtErr (deleteStmt dashId i db) rest

/-- The `for _, sql := range deletes` loop over the six statements. -/
def runDeletes (dashId : Int) (stmtErr : Nat → Option String) (db : DB) :
    Except DeleteError DB :=
  runDeletesAux dashId stmtErr db [0, 1, 2, 3, 4, 5]

/-- `DeleteDashboard` (lines 364–396).  `sess.Get(&dashboard)` with id and
org set looks up the row by both columns.  After the delete loop,
`DeleteAlertDefinition` (defined elsewhere in the repository) is invoked;
its outcome is abstracted as `hookErr`, and on a hook error the source
executes `return nil` — the transaction still commits.  On any error the
transaction rolls back, leaving the original state. -/
def DeleteDashboard (db : DB) (cmd : DeleteDashboardCommand)
    (stmtErr : Nat → Option String) (hookErr : Option String) :
    Except DeleteError Unit × DB :=
  match findDashById db cmd.id cmd.orgId with
  | none => (.error .notFound, db)
  | some dashboard =>
    match runDeletes dashboard.id stmtErr db with
    | .error e => (.error e, db)
    | .ok db' =>
      match hookErr with
      | some _ => (.ok (), db')
      | none => (.ok (), db')

/-- The row the insert branch of `writeDashboard` produces. -/
def insertedRow (db : DB) (dash : Dashboard) : Dashboard :=
  { dash with id := db.nextId, version := 1, data := { dash.data with version := 1 } }

/-- The row the update branch of `writeDashboard` produces. -/
def updatedRow (dash : Dashboard) : Dashboard :=
  { dash with version := dash.version + 1, data := { dash.data with version := dash.version + 1 } }

/-- The canonical table after the update branch rewrites the row whose id
matches. -/
def updatedRows (db : DB) (dash : Dashboard) : List Dashboard :=
  db.dashboards.map (fun r => if r.id == dash.id then updatedRow dash else r)

/-- The state after the version-history append and tag replacement that
follow a successful canonical write. -/
def postWrite (cmd : SaveDashboardCommand) (parentVersion : Int) (dashW : Dashboard)
    (db1 : DB) : DB :=
  replaceTags { db1 with versions := db1.versions ++ [mkVersionRow cmd parentVersion dashW] } dashW

/-- The state left by a fully successful pass of the six delete statements
for dashboard id `dashId`: the dashboard's tag, star, playlist and
version-history rows are removed, as are its own canonical row and the
canonical rows of dashboards whose `folderId` equals `dashId`. -/
def deletedState (dashId : Int) (db : DB) : DB :=
  { db with
    dashboards := (db.dashboards.filter (fun r => r.id != dashId)).filter (fun r => r.folderId != dashId),
    tags := db.tags.filter (fun t => t.dashboardId != dashId),
    versions := db.versions.filter (fun v => v.dashboardId != dashId),
    stars := db.stars.filter (fun s => s != dashId),
    playlistItems := db.playlistItems.filter (fun p => p != dashId) }

/-! ## Concrete fixtures used by witnesses and counterexamples -/

/-- An empty store. -/
def exEmptyDb : DB :=
  { dashboards := [], versions := [], tags := [], aclRows := [], stars := [],
    playlistItems := [], nextId := 10 }

/-- A fresh candidate dashboard model (id 0, declared version 0). -/
def exCandNew : Dashboard :=
  { id := 0, orgId := 1, slug := "x", title := "X", version := 0, folderId := 0,
    isFolder := false, hasAcl := false, pluginId := "", updatedBy := 7,
    data := { version := 0, tags := ["a"] } }

/-- Save command for `exCandNew`. -/
def exCmdNew : SaveDashboardCommand :=
  { dashboard := exCandNew, overwrite := false, message := "", restoredFrom := 0 }

/-- A candidate with id 0 but a nonzero declared version (its body carries
`version = 5`). -/
def exCandV5 : Dashboard :=
  { exCandNew with version := 5, data := { version := 5, tags := ["a"] } }

/-- Save command for `exCandV5`. -/
def exCmdV5 : SaveDashboardCommand :=
  { dashboard := exCandV5, overwrite := false, message := "m", restoredFrom := 0 }

/-- A stored user dashboard at version 3, id 1, org 1. -/
def ex2E : Dashboard :=
  { id := 1, orgId := 1, slug := "x", title := "X", version := 3, folderId := 0,
    isFolder := false, hasAcl := false, pluginId := "", updatedBy := 7,
    data := { version := 3, tags := [] } }

/-- A store holding only `ex2E`. -/
def ex2Db : DB :=
  { dashboards := [ex2E], versions := [], tags := [], aclRows := [], stars := [],
    playlistItems := [], nextId := 2 }

/-- A save command resubmitting `ex2E` at its stored version. -/
def ex2Cmd : SaveDashboardCommand :=
  { dashboard := ex2E, overwrite := false, message := "", restoredFrom := 0 }

/-- The dashboard produced by saving `ex2Cmd` against `ex2Db`. -/
def ex2Res : Dashboard := { ex2E with version := 4, data := { version := 4, tags := [] } }

/-- The store produced by saving `ex2Cmd` against `ex2Db`. -/
def ex2Db' : DB :=
  { dashboards := [ex2Res],
    versions := [{ dashboardId := 1, parentVersion := 3, restoredFrom := 0, version := 4,
                   createdBy := 7, message := "", data := { version := 4, tags := [] } }],
    tags := [], aclRows := [], stars := [], playlistItems := [], nextId := 2 }

/-- A stale save command for `ex2E`: declared version 1 against stored 3. -/
def ex4Cmd : SaveDashboardCommand :=
  { dashboard := { ex2E with version := 1, data := { version := 1, tags := [] } },
    overwrite := false, message := "", restoredFrom := 0 }

/-- A stored plugin-provisioned dashboard (pluginId "X") at version 2. -/
def ex5E : Dashboard :=
  { id := 1, orgId := 1, slug := "p", title := "P", version := 2, folderId := 0,
    isFolder := false, hasAcl := false, pluginId := "X", updatedBy := 0,
    data := { version := 2, tags := [] } }

/-- A store holding only `ex5E`. -/
def ex5Db : DB :=
  { dashboards := [ex5E], versions := [], tags := [], aclRows := [], stars := [],
    playlistItems := [], nextId := 2 }

/-- A stale (version 1) non-overwrite save against the plugin dashboard. -/
def ex5Cmd : SaveDashboardCommand :=
  { dashboard := { ex5E with version := 1, pluginId := "", data := { version := 1, tags := [] } },
    overwrite := false, message := "", restoredFrom := 0 }

/-- A matching-version non-overwrite save against the plugin dashboard. -/
def ex5CmdMatch : SaveDashboardCommand :=
  { dashboard := { ex5E with pluginId := "" }, overwrite := false, message := "", restoredFrom := 0 }

/-- An overwrite save against the plugin dashboard. -/
def ex5CmdOv : SaveDashboardCommand :=
  { dashboard := { ex5E with pluginId := "" }, overwrite := true, message := "", restoredFrom := 0 }

/-- Stored dashboard A: id 1, slug "a", version 5. -/
def ex6A : Dashboard :=
  { id := 1, orgId := 1, slug := "a", title := "A", version := 5, folderId := 0,
    isFolder := false, hasAcl := false, pluginId := "", updatedBy := 0,
    data := { version := 5, tags := [] } }

/-- Stored dashboard B: id 2, slug "x", version 3. -/
def ex6B : Dashboard :=
  { id := 2, orgId := 1, slug := "x", title := "B", version := 3, folderId := 0,
    isFolder := false, hasAcl := false, pluginId := "", updatedBy := 0,
    data := { version := 3, tags := [] } }

/-- A store holding `ex6A` and `ex6B`. -/
def ex6Db : DB :=
  { dashboards := [ex6A, ex6B], versions := [], tags := [], aclRows := [], stars := [],
    playlistItems := [], nextId := 3 }

/-- A stale non-overwrite save of id 1 whose slug collides with `ex6B`. -/
def ex6Cmd : SaveDashboardCommand :=
  { dashboard := { ex6A with slug := "x", version := 1, data := { version := 1, tags := [] } },
    overwrite := false, message := "", restoredFrom := 0 }

/-- A candidate with id 0 whose slug collides with `ex6B`. -/
def ex6CmdNew : SaveDashboardCommand :=
  { dashboard := { ex6A with id := 0, slug := "x", version := 0, data := { version := 0, tags := [] } },
    overwrite := false, message := "", restoredFrom := 0 }

/-- The same colliding candidate submitted with `overwrite = true`. -/
def ex6CmdNewOv : SaveDashboardCommand := { ex6CmdNew with overwrite := true }

/-- A folder row: id 5, `hasAcl = true`, itself at the root. -/
def ex7Folder : Dashboard :=
  { id := 5, orgId := 1, slug := "f", title := "F", version := 1, folderId := 0,
    isFolder := true, hasAcl := true, pluginId := "", updatedBy := 0,
    data := { version := 1, tags := [] } }

/-- A store holding only the ACL-protected folder `ex7Folder`. -/
def ex7Db : DB :=
  { dashboards := [ex7Folder], versions := [], tags := [], aclRows := [], stars := [],
    playlistItems := [], nextId := 10 }

/-- A fresh candidate placed inside folder 5. -/
def ex7Cmd : SaveDashboardCommand :=
  { dashboard := { exCandNew with slug := "d", folderId := 5 },
    overwrite := false, message := "", restoredFrom := 0 }

/-- The dashboard produced by saving `ex7Cmd` against `ex7Db`. -/
def ex7Res : Dashboard :=
  { id := 10, orgId := 1, slug := "d", title := "X", version := 1, folderId := 5,
    isFolder := false, hasAcl := false, pluginId := "", updatedBy := 7,
    data := { version := 1, tags := ["a"] } }

/-- The store produced by saving `ex7Cmd` against `ex7Db`. -/
def ex7Db' : DB :=
  { dashboards := [ex7Folder, ex7Res],
    versions := [{ dashboardId := 10, parentVersion := 0, restoredFrom := 0, version := 1,
                   createdBy := 7, message := "", data := { version := 1, tags := ["a"] } }],
    tags := [⟨10, "a"⟩], aclRows := [], stars := [], playlistItems := [], nextId := 11 }

/-- A folder dashboard D, id 1. -/
def ex8D : Dashboard :=
  { id := 1, orgId := 1, slug := "dd", title := "D", version := 1, folderId := 0,
    isFolder := true, hasAcl := false, pluginId := "", updatedBy := 0,
    data := { version := 1, tags := [] } }

/-- A child dashboard of `ex8D`, id 2, `folderId` 1. -/
def ex8C : Dashboard :=
  { id := 2, orgId := 1, slug := "cc", title := "C", version := 1, folderId := 1,
    isFolder := false, hasAcl := false, pluginId := "", updatedBy := 0,
    data := { version := 1, tags := [] } }

/-- A store with folder `ex8D`, its child `ex8C`, the child's tag row and
the child's version-history row. -/
def ex8Db : DB :=
  { dashboards := [ex8D, ex8C],
    versions := [{ dashboardId := 2, parentVersion := 0, restoredFrom := 0, version := 1,
                   createdBy := 0, message := "", data := { version := 1, tags := [] } }],
    tags := [⟨2, "a"⟩], aclRows := [], stars := [], playlistItems := [], nextId := 3 }

/-- Delete command for the folder `ex8D`. -/
def ex8Cmd : DeleteDashboardCommand := { id := 1, orgId := 1 }

/-- The store left by deleting folder `ex8D` from `ex8Db`: both canonical
rows are gone, but the child's tag row and version-history row remain. -/
def ex8Db' : DB :=
  { dashboards := [],
    versions := [{ dashboardId := 2, parentVersion := 0, restoredFrom := 0, version := 1,
                   createdBy := 0, message := "", data := { version := 1, tags := [] } }],
    tags := [⟨2, "a"⟩], aclRows := [], stars := [], playlistItems := [], nextId := 3 }

/-! ## Helper lemmas -/

theorem setHasAcl_id (db : DB) (d : Dashboard) : (setHasAcl db d).id = d.id := by
  unfold setHasAcl
  dsimp only
  repeat' split
  all_goals rfl

theorem setHasAcl_orgId (db : DB) (d : Dashboard) : (setHasAcl db d).orgId = d.orgId := by
  unfold setHasAcl
  dsimp only
  repeat' split
  all_goals rfl

theorem setHasAcl_slug (db : DB) (d : Dashboard) : (setHasAcl db d).slug = d.slug := by
  unfold setHasAcl
  dsimp only
  repeat' split
  all_goals rfl

theorem setHasAcl_version (db : DB) (d : Dashboard) : (setHasAcl db d).version = d.version := by
  unfold setHasAcl
  dsimp only
  repeat' split
  all_goals rfl

theorem setHasAcl_data (db : DB) (d : Dashboard) : (setHasAcl db d).data = d.data := by
  unfold setHasAcl
  dsimp only
  repeat' split
  all_goals rfl

/-- What `setHasAcl` actually computes: the candidate's own flag, OR-ed
with the flag of the first stored row whose `folder_id` equals the
candidate's folder id (when positive), OR-ed with the presence of an ACL
row for the candidate's id (when positive). -/
theorem setHasAcl_hasAcl (db : DB) (d : Dashboard) :
    (setHasAcl db d).hasAcl =
      (d.hasAcl
        || (decide (0 < d.folderId)
            && (db.dashboards.find? (fun r => r.folderId == d.folderId)).elim false Dashboard.hasAcl)
        || (decide (0 < d.id) && db.aclRows.any (fun a => a == d.id))) := by
  unfold setHasAcl
  dsimp only
  cases hfind : db.dashboards.find? (fun r => r.folderId == d.folderId)
  all_goals cases hacl : db.aclRows.any (fun a => a == d.id)
  all_goals repeat' split
  all_goals try simp_all [Option.elim, ← not_lt]
  all_goals (exfalso; apply absurd rfl; solve_by_elim)

theorem checkExisting_ok_of_id_zero (db : DB) (cmd : SaveDashboardCommand) (dash : Dashboard)
    (h : dash.id = 0) : checkExisting db cmd dash = .ok dash := by
  unfold checkExisting
  simp [h]

theorem checkExisting_ok_shape (db : DB) (cmd : SaveDashboardCommand) (dash d1 : Dashboard)
    (h : checkExisting db cmd dash = .ok d1) : ∃ v, d1 = { dash with version := v } := by
  unfold checkExisting checkPlugin at h
  repeat' split at h
  all_goals try exact Except.noConfusion h
  all_goals injection h with h
  all_goals exact ⟨_, h.symm⟩

theorem checkExisting_ok_version (db : DB) (cmd : SaveDashboardCommand) (dash d1 E : Dashboard)
    (hid : dash.id > 0) (hE : findDashById db dash.id dash.orgId = some E)
    (h : checkExisting db cmd dash = .ok d1) : d1 = { dash with version := E.version } := by
  unfold checkExisting checkPlugin at h
  simp only [hid, if_true, hE] at h
  by_cases hv : dash.version = E.version
  · rw [if_neg (by simp [hv])] at h
    split at h
    · exact Except.noConfusion h
    · injection h with h
      subst h
      rw [← hv]
  · rw [if_pos (by simp [bne_iff_ne, hv])] at h
    split at h
    · split at h
      · exact Except.noConfusion h
      · injection h with h
        subst h
        rfl
    · exact Except.noConfusion h

theorem checkSameTitle_ok_no_adopt (db : DB) (cmd : SaveDashboardCommand) (dash : Dashboard)
    (h : ∀ S, findDashBySlug db dash.orgId dash.slug = some S → S.id = dash.id) :
    checkSameTitle db cmd dash = .ok dash := by
  unfold checkSameTitle
  cases hS : findDashBySlug db dash.orgId dash.slug with
  | none => rfl
  | some S => simp [h S hS]

theorem writeDashboard_insert (db : DB) (dash : Dashboard) (h : dash.id = 0) :
    writeDashboard db dash =
      .ok (insertedRow db dash,
           { db with dashboards := db.dashboards ++ [insertedRow db dash],
                     nextId := db.nextId + 1 }) := by
  unfold writeDashboard insertedRow
  simp [h]

theorem writeDashboard_update (db : DB) (dash : Dashboard) (hne : dash.id ≠ 0)
    (hmem : ∃ r ∈ db.dashboards, r.id = dash.id) :
    writeDashboard db dash =
      .ok (updatedRow dash, { db with dashboards := updatedRows db dash }) := by
  obtain ⟨r, hr, hrid⟩ := hmem
  unfold writeDashboard updatedRows updatedRow
  have hany : db.dashboards.any (fun r => r.id == dash.id) = true :=
    List.any_eq_true.mpr ⟨r, hr, by simp [hrid]⟩
  simp [hne, hany]

theorem saveBody_ok_inv (db : DB) (cmd : SaveDashboardCommand) (res : Dashboard) (db' : DB)
    (h : saveBody db cmd = .ok (res, db')) :
    ∃ d1 d2 db1,
      checkExisting db cmd cmd.dashboard = .ok d1 ∧
      checkSameTitle db cmd d1 = .ok d2 ∧
      writeDashboard db (setHasAcl db d2) = .ok (res, db1) ∧
      db' = postWrite cmd (setHasAcl db d2).version res db1 := by
  unfold saveBody at h
  cases h1 : checkExisting db cmd cmd.dashboard with
  | error e => simp [h1] at h
  | ok d1 =>
    cases h2 : checkSameTitle db cmd d1 with
    | error e => simp [h1, h2] at h
    | ok d2 =>
      cases h3 : writeDashboard db (setHasAcl db d2) with
      | error e => simp [h1, h2, h3] at h
      | ok p =>
        obtain ⟨dW, db1⟩ := p
        simp only [h1, h2, h3] at h
        injection h with h
        injection h with hres hdb
        subst hres
        subst hdb
        exact ⟨d1, d2, db1, rfl, h2, h3, rfl⟩

theorem saveBody_eq_of (db : DB) (cmd : SaveDashboardCommand) (d1 d2 dW : Dashboard) (db1 : DB)
    (h1 : checkExisting db cmd cmd.dashboard = .ok d1)
    (h2 : checkSameTitle db cmd d1 = .ok d2)
    (h3 : writeDashboard db (setHasAcl db d2) = .ok (dW, db1)) :
    saveBody db cmd = .ok (dW, postWrite cmd (setHasAcl db d2).version dW db1) := by
  unfold saveBody postWrite
  simp [h1, h2, h3]

theorem SaveDashboard_ok_iff (db : DB) (cmd : SaveDashboardCommand) (res : Dashboard) (db' : DB) :
    SaveDashboard db cmd = (.ok res, db') ↔ saveBody db cmd = .ok (res, db') := by
  unfold SaveDashboard
  cases h : saveBody db cmd with
  | error e => simp
  | ok p => obtain ⟨d, s⟩ := p; simp

theorem SaveDashboard_of_error (db : DB) (cmd : SaveDashboardCommand) (e : SaveError)
    (h : saveBody db cmd = .error e) : SaveDashboard db cmd = (.error e, db) := by
  unfold SaveDashboard
  rw [h]

theorem writeDashboard_ok_cases (db : DB) (dh res : Dashboard) (db1 : DB)
    (h : writeDashboard db dh = .ok (res, db1)) :
    (dh.id = 0 ∧ res = insertedRow db dh ∧
       db1 = { db with dashboards := db.dashboards ++ [insertedRow db dh],
                       nextId := db.nextId + 1 }) ∨
    (dh.id ≠ 0 ∧ res = updatedRow dh ∧ db1 = { db with dashboards := updatedRows db dh } ∧
       ∃ r ∈ db.dashboards, r.id = dh.id) := by
  unfold writeDashboard at h
  dsimp only at h
  split at h
  · left
    injection h with h
    injection h with hres hdb
    refine ⟨by simp_all, hres.symm, hdb.symm⟩
  · split at h
    · right
      injection h with h
      injection h with hres hdb
      refine ⟨by simp_all, hres.symm, hdb.symm, ?_⟩
      rename_i hany
      obtain ⟨r, hr, hrid⟩ := List.any_eq_true.mp hany
      exact ⟨r, hr, by simpa using hrid⟩
    · exact Except.noConfusion h

theorem postWrite_dashboards (cmd : SaveDashboardCommand) (pv : Int) (dW : Dashboard) (db1 : DB) :
    (postWrite cmd pv dW db1).dashboards = db1.dashboards := rfl

theorem postWrite_versions (cmd : SaveDashboardCommand) (pv : Int) (dW : Dashboard) (db1 : DB) :
    (postWrite cmd pv dW db1).versions = db1.versions ++ [mkVersionRow cmd pv dW] := rfl

theorem insertedRow_version (db : DB) (d : Dashboard) : (insertedRow db d).version = 1 := rfl

theorem updatedRow_id (d : Dashboard) : (updatedRow d).id = d.id := rfl

theorem updatedRow_version (d : Dashboard) : (updatedRow d).version = d.version + 1 := rfl

/-! ## Claim theorems -/

/-- C10 (code bug): `NewAlertEvaluator` is not total over its input model —
for the ranged type `"within_range"` with a single-element `params` array it
evaluates `params[1]` past the end of the array, which panics at runtime
instead of returning a `ValidationError`. -/
theorem newAlertEvaluator_ranged_single_param_panics :
    inSlice "within_range" rangedTypes = true ∧
    NewAlertEvaluator { typ := "within_range", params := [JParam.num 1] } = .panicked :=
  ⟨rfl, rfl⟩

/-- C4 (confirmed): saving an existing dashboard under a declared version
different from the stored one, with `overwrite = false`, fails with the
version-mismatch error, and the transaction leaves the store unchanged —
canonical rows, version history and tags included. -/
theorem save_stale_version_conflict (db : DB) (cmd : SaveDashboardCommand) (E : Dashboard)
    (hid : cmd.dashboard.id > 0)
    (hE : findDashById db cmd.dashboard.id cmd.dashboard.orgId = some E)
    (hver : cmd.dashboard.version ≠ E.version)
    (hov : cmd.overwrite = false) :
    SaveDashboard db cmd = (.error .versionMismatch, db) := by
  apply SaveDashboard_of_error
  unfold saveBody
  have h1 : checkExisting db cmd cmd.dashboard = .error .versionMismatch := by
    unfold checkExisting
    simp [hid, hE, hov, bne_iff_ne, hver]
  rw [h1]

/-- Witness for C4 at a concrete store: stored version 3, declared version 1,
no overwrite. -/
theorem save_stale_version_conflict_witness :
    (ex4Cmd.dashboard.id > 0) ∧
    findDashById ex2Db ex4Cmd.dashboard.id ex4Cmd.dashboard.orgId = some ex2E ∧
    ex4Cmd.dashboard.version ≠ ex2E.version ∧ ex4Cmd.overwrite = false ∧
    SaveDashboard ex2Db ex4Cmd = (.error .versionMismatch, ex2Db) :=
  ⟨by decide, by decide, by decide, by decide,
   save_stale_version_conflict ex2Db ex4Cmd ex2E (by decide) (by decide) (by decide) (by decide)⟩

/-- C1 counterexample: a save of a brand-new candidate (id 0) whose body
declares version 5 succeeds with canonical version 1, yet the single
version-history row it appends has `parentVersion = 5`, not 0 — the claim's
`parentVersion = 0` fails. -/
theorem save_new_dashboard_nonzero_parent :
    exCmdV5.dashboard.id = 0 ∧
    (SaveDashboard exEmptyDb exCmdV5).1.map Dashboard.version = .ok 1 ∧
    (SaveDashboard exEmptyDb exCmdV5).2.versions.map DashboardVersion.parentVersion = [5] ∧
    (5 : Int) ≠ 0 :=
  ⟨rfl, rfl, rfl, by decide⟩

/-- C1 (amended): a save whose candidate has id 0 and declared version 0, and
whose slug is not yet stored in the org, succeeds; the canonical row gets
version 1 and exactly one version-history row is appended, with `version = 1`
and `parentVersion = 0` (the candidate's declared version). -/
theorem save_new_dashboard_first_version (db : DB) (cmd : SaveDashboardCommand)
    (hid : cmd.dashboard.id = 0)
    (hver : cmd.dashboard.version = 0)
    (hslug : findDashBySlug db cmd.dashboard.orgId cmd.dashboard.slug = none) :
    ∃ res db', SaveDashboard db cmd = (.ok res, db') ∧
      res.version = 1 ∧ res.id = db.nextId ∧ res ∈ db'.dashboards ∧
      ∃ v, db'.versions = db.versions ++ [v] ∧ v.dashboardId = res.id ∧
        v.version = 1 ∧ v.parentVersion = 0 := by
  have h1 := checkExisting_ok_of_id_zero db cmd cmd.dashboard hid
  have h2 := checkSameTitle_ok_no_adopt db cmd cmd.dashboard
    (fun S hS => by rw [hslug] at hS; exact Option.noConfusion hS)
  have hAid : (setHasAcl db cmd.dashboard).id = 0 := by rw [setHasAcl_id, hid]
  have h3 := writeDashboard_insert db (setHasAcl db cmd.dashboard) hAid
  have hsb := saveBody_eq_of db cmd cmd.dashboard cmd.dashboard _ _ h1 h2 h3
  refine ⟨_, _, (SaveDashboard_ok_iff db cmd _ _).mpr hsb, rfl, rfl, ?_, ?_⟩
  · simp [postWrite_dashboards]
  · refine ⟨mkVersionRow cmd (setHasAcl db cmd.dashboard).version
      (insertedRow db (setHasAcl db cmd.dashboard)), ?_, rfl, rfl, ?_⟩
    · rw [postWrite_versions]
    · show (setHasAcl db cmd.dashboard).version = 0
      rw [setHasAcl_version]
      exact hver

/-- Witness for the amended C1 at a concrete fresh save. -/
theorem save_new_dashboard_first_version_witness :
    exCmdNew.dashboard.id = 0 ∧ exCmdNew.dashboard.version = 0 ∧
    findDashBySlug exEmptyDb exCmdNew.dashboard.orgId exCmdNew.dashboard.slug = none ∧
    (∃ res db', SaveDashboard exEmptyDb exCmdNew = (.ok res, db') ∧
      res.version = 1 ∧ res.id = exEmptyDb.nextId ∧ res ∈ db'.dashboards ∧
      ∃ v, db'.versions = exEmptyDb.versions ++ [v] ∧ v.dashboardId = res.id ∧
        v.version = 1 ∧ v.parentVersion = 0) :=
  ⟨rfl, rfl, rfl, save_new_dashboard_first_version exEmptyDb exCmdNew rfl rfl rfl⟩

/-- C3 (confirmed): after every successful save — insert branch or update
branch — the written canonical row's `version` column equals the `version`
field embedded in its body document. -/
theorem save_version_mirror_invariant (db : DB) (cmd : SaveDashboardCommand)
    (res : Dashboard) (db' : DB)
    (h : SaveDashboard db cmd = (.ok res, db')) :
    res ∈ db'.dashboards ∧ res.version = res.data.version := by
  obtain ⟨d1, d2, db1, h1, h2, h3, hdb⟩ :=
    saveBody_ok_inv db cmd res db' ((SaveDashboard_ok_iff db cmd res db').mp h)
  subst hdb
  rcases writeDashboard_ok_cases db (setHasAcl db d2) res db1 h3 with
    ⟨hz, hres, hdb1⟩ | ⟨hnz, hres, hdb1, r, hr, hrid⟩
  · subst hres; subst hdb1
    exact ⟨by simp [postWrite_dashboards], rfl⟩
  · subst hres; subst hdb1
    refine ⟨?_, rfl⟩
    rw [postWrite_dashboards]
    show updatedRow (setHasAcl db d2) ∈ updatedRows db (setHasAcl db d2)
    unfold updatedRows
    exact List.mem_map.mpr ⟨r, hr, by simp [hrid]⟩

/-- Witness for C3 at a concrete successful update save. -/
theorem save_version_mirror_invariant_witness :
    SaveDashboard ex2Db ex2Cmd = (.ok ex2Res, ex2Db') ∧
    (ex2Res ∈ ex2Db'.dashboards ∧ ex2Res.version = ex2Res.data.version) :=
  ⟨rfl, save_version_mirror_invariant ex2Db ex2Cmd ex2Res ex2Db' rfl⟩

/-- C2 (confirmed): a successful save of an existing dashboard (stored row
`E`), with no adopt-identity slug merge, bumps the canonical version to
exactly `E.version + 1` and appends exactly one version-history row, whose
`version` is the new canonical version and whose `parentVersion` is the
pre-write version `E.version`. -/
theorem save_existing_increments_version (db : DB) (cmd : SaveDashboardCommand)
    (E res : Dashboard) (db' : DB)
    (hid : cmd.dashboard.id > 0)
    (hE : findDashById db cmd.dashboard.id cmd.dashboard.orgId = some E)
    (hnoadopt : ∀ S, findDashBySlug db cmd.dashboard.orgId cmd.dashboard.slug = some S →
      S.id = cmd.dashboard.id)
    (h : SaveDashboard db cmd = (.ok res, db')) :
    res.id = cmd.dashboard.id ∧ res.version = E.version + 1 ∧ res ∈ db'.dashboards ∧
    ∃ v, db'.versions = db.versions ++ [v] ∧ v.dashboardId = cmd.dashboard.id ∧
      v.version = E.version + 1 ∧ v.parentVersion = E.version := by
  obtain ⟨d1, d2, db1, h1, h2, h3, hdb⟩ :=
    saveBody_ok_inv db cmd res db' ((SaveDashboard_ok_iff db cmd res db').mp h)
  subst hdb
  have hd1 : d1 = { cmd.dashboard with version := E.version } :=
    checkExisting_ok_version db cmd cmd.dashboard d1 E hid hE h1
  subst hd1
  rw [checkSameTitle_ok_no_adopt db cmd { cmd.dashboard with version := E.version } hnoadopt] at h2
  injection h2 with h2
  subst h2
  rcases writeDashboard_ok_cases db _ res db1 h3 with
    ⟨hz, _, _⟩ | ⟨hnz, hres, hdb1, r, hr, hrid⟩
  · rw [setHasAcl_id] at hz
    exact absurd hz hid.ne'
  · subst hres
    subst hdb1
    have hdhid : (setHasAcl db { cmd.dashboard with version := E.version }).id =
        cmd.dashboard.id := setHasAcl_id db _
    have hdhver : (setHasAcl db { cmd.dashboard with version := E.version }).version =
        E.version := setHasAcl_version db _
    refine ⟨?_, ?_, ?_, ?_⟩
    · rw [updatedRow_id, hdhid]
    · rw [updatedRow_version, hdhver]
    · rw [postWrite_dashboards]
      show updatedRow _ ∈ updatedRows db _
      unfold updatedRows
      exact List.mem_map.mpr ⟨r, hr, by simp [hrid]⟩
    · refine ⟨mkVersionRow cmd (setHasAcl db { cmd.dashboard with version := E.version }).version
        (updatedRow (setHasAcl db { cmd.dashboard with version := E.version })), ?_, ?_, ?_, ?_⟩
      · rw [postWrite_versions]
      · show (updatedRow (setHasAcl db { cmd.dashboard with version := E.version })).id =
          cmd.dashboard.id
        rw [updatedRow_id, hdhid]
      · show (updatedRow (setHasAcl db { cmd.dashboard with version := E.version })).version =
          E.version + 1
        rw [updatedRow_version, hdhver]
      · exact hdhver

/-- Witness for C2 at a concrete update save (stored version 3 becomes 4). -/
theorem save_existing_increments_version_witness :
    (ex2Cmd.dashboard.id > 0) ∧
    findDashById ex2Db ex2Cmd.dashboard.id ex2Cmd.dashboard.orgId = some ex2E ∧
    (∀ S, findDashBySlug ex2Db ex2Cmd.dashboard.orgId ex2Cmd.dashboard.slug = some S →
      S.id = ex2Cmd.dashboard.id) ∧
    SaveDashboard ex2Db ex2Cmd = (.ok ex2Res, ex2Db') ∧
    (ex2Res.id = ex2Cmd.dashboard.id ∧ ex2Res.version = ex2E.version + 1 ∧
     ex2Res ∈ ex2Db'.dashboards ∧
     ∃ v, ex2Db'.versions = ex2Db.versions ++ [v] ∧ v.dashboardId = ex2Cmd.dashboard.id ∧
       v.version = ex2E.version + 1 ∧ v.parentVersion = ex2E.version) :=
  ⟨by decide, by decide, fun S hS => by injection hS with h; subst h; rfl, rfl,
   save_existing_increments_version ex2Db ex2Cmd ex2E ex2Res ex2Db' (by decide) (by decide)
     (fun S hS => by injection hS with h; subst h; rfl) rfl⟩

/-- C7 counterexample: the store holds a folder (id 5) with `hasAcl = true`
and a fresh candidate is saved into that folder (`folderId = 5`), yet the
persisted row has `hasAcl = false` — because `setHasAcl` queries
`folder_id = 5` (rows *inside* the folder) instead of the folder row
itself, and no row is inside the folder yet. -/
theorem hasAcl_parent_folder_not_consulted :
    ex7Cmd.dashboard.folderId = ex7Folder.id ∧
    ex7Folder ∈ ex7Db.dashboards ∧ ex7Folder.hasAcl = true ∧
    ex7Cmd.dashboard.hasAcl = false ∧
    (SaveDashboard ex7Db ex7Cmd).1.map Dashboard.hasAcl = .ok false :=
  ⟨rfl, by decide, rfl, rfl, rfl⟩

/-- C7 (amended): for every successful save that does not adopt another
row's identity, the persisted `hasAcl` is true exactly when the candidate
already carried the flag, or the *first stored row whose `folderId` equals
the candidate's (positive) `folderId`* has the flag, or the candidate's id
is positive and some access-control-list row references it; the derivation
reads the pre-write store. -/
theorem save_hasAcl_derivation (db : DB) (cmd : SaveDashboardCommand) (res : Dashboard) (db' : DB)
    (hnoadopt : ∀ S, findDashBySlug db cmd.dashboard.orgId cmd.dashboard.slug = some S →
      S.id = cmd.dashboard.id)
    (h : SaveDashboard db cmd = (.ok res, db')) :
    res.hasAcl = (cmd.dashboard.hasAcl
      || (decide (0 < cmd.dashboard.folderId)
          && (db.dashboards.find? (fun r => r.folderId == cmd.dashboard.folderId)).elim false
               Dashboard.hasAcl)
      || (decide (0 < cmd.dashboard.id) && db.aclRows.any (fun a => a == cmd.dashboard.id))) := by
  obtain ⟨d1, d2, db1, h1, h2, h3, hdb⟩ :=
    saveBody_ok_inv db cmd res db' ((SaveDashboard_ok_iff db cmd res db').mp h)
  obtain ⟨v, hd1⟩ := checkExisting_ok_shape db cmd cmd.dashboard d1 h1
  subst hd1
  rw [checkSameTitle_ok_no_adopt db cmd { cmd.dashboard with version := v } hnoadopt] at h2
  injection h2 with h2
  subst h2
  have hpres : res.hasAcl = (setHasAcl db { cmd.dashboard with version := v }).hasAcl := by
    rcases writeDashboard_ok_cases db _ res db1 h3 with ⟨_, hres, _⟩ | ⟨_, hres, _, _⟩
    · subst hres; rfl
    · subst hres; rfl
  rw [hpres, setHasAcl_hasAcl]

/-- Witness for the amended C7 at a concrete fresh save into folder 5. -/
theorem save_hasAcl_derivation_witness :
    (∀ S, findDashBySlug ex7Db ex7Cmd.dashboard.orgId ex7Cmd.dashboard.slug = some S →
      S.id = ex7Cmd.dashboard.id) ∧
    SaveDashboard ex7Db ex7Cmd = (.ok ex7Res, ex7Db') ∧
    ex7Res.hasAcl = (ex7Cmd.dashboard.hasAcl
      || (decide (0 < ex7Cmd.dashboard.folderId)
          && (ex7Db.dashboards.find? (fun r => r.folderId == ex7Cmd.dashboard.folderId)).elim false
               Dashboard.hasAcl)
      || (decide (0 < ex7Cmd.dashboard.id)
          && ex7Db.aclRows.any (fun a => a == ex7Cmd.dashboard.id))) :=
  ⟨fun _ hS => Option.noConfusion hS, rfl,
   save_hasAcl_derivation ex7Db ex7Cmd ex7Res ex7Db' (fun _ hS => Option.noConfusion hS) rfl⟩

theorem checkSameTitle_found_self (db : DB) (cmd : SaveDashboardCommand) (dash S : Dashboard)
    (hS : findDashBySlug db dash.orgId dash.slug = some S) (heq : dash.id = S.id) :
    checkSameTitle db cmd dash = .ok dash := by
  unfold checkSameTitle
  rw [hS]
  simp [heq]

theorem checkSameTitle_found_other (db : DB) (cmd : SaveDashboardCommand) (dash S : Dashboard)
    (hS : findDashBySlug db dash.orgId dash.slug = some S) (hne : dash.id ≠ S.id) :
    checkSameTitle db cmd dash =
      if cmd.overwrite then .ok { dash with id := S.id, version := S.version }
      else .error .sameNameExists := by
  unfold checkSameTitle
  rw [hS]
  simp [bne_iff_ne, hne]

theorem checkExisting_overwrite_ok (db : DB) (cmd : SaveDashboardCommand) (E : Dashboard)
    (hid : cmd.dashboard.id > 0)
    (hE : findDashById db cmd.dashboard.id cmd.dashboard.orgId = some E)
    (hov : cmd.overwrite = true) :
    checkExisting db cmd cmd.dashboard = .ok { cmd.dashboard with version := E.version } := by
  unfold checkExisting checkPlugin
  by_cases hv : cmd.dashboard.version = E.version
  · simp [hid, hE, hov, ← hv]
  · simp [hid, hE, hov, hv, bne_iff_ne]

theorem find_id_mem (db : DB) (i o : Int) (E : Dashboard)
    (hE : findDashById db i o = some E) : E ∈ db.dashboards ∧ E.id = i :=
  ⟨List.mem_of_find?_eq_some hE, by have := List.find?_some hE; simp at this; exact this.1⟩

/-- C5 counterexample: the stored dashboard is plugin-owned
(`pluginId = "X"`), yet a non-overwrite save whose declared version is stale
fails with the version-mismatch error, not with the plugin-protection error
the claim requires for every non-overwrite save. -/
theorem plugin_guard_preempted_by_version_conflict :
    findDashById ex5Db ex5Cmd.dashboard.id ex5Cmd.dashboard.orgId = some ex5E ∧
    ex5E.pluginId = "X" ∧ ("X" : String) ≠ "" ∧ ex5Cmd.overwrite = false ∧
    SaveDashboard ex5Db ex5Cmd = (.error .versionMismatch, ex5Db) ∧
    SaveError.versionMismatch ≠ SaveError.pluginDashboard "X" :=
  ⟨by decide, rfl, by decide, rfl, rfl, by decide⟩

/-- C5 (amended): for a stored plugin-owned dashboard, a non-overwrite save
whose declared version matches the stored one fails with the
plugin-protection error carrying the owning plugin id (a stale declared
version fails earlier with the version-mismatch error); and any save of it
with `overwrite = true` succeeds. -/
theorem save_plugin_guard (db : DB) (cmd : SaveDashboardCommand) (E : Dashboard)
    (hid : cmd.dashboard.id > 0)
    (hE : findDashById db cmd.dashboard.id cmd.dashboard.orgId = some E)
    (hplug : E.pluginId ≠ "") :
    (cmd.overwrite = false → cmd.dashboard.version = E.version →
      SaveDashboard db cmd = (.error (.pluginDashboard E.pluginId), db)) ∧
    (cmd.overwrite = true → ∃ res db', SaveDashboard db cmd = (.ok res, db')) := by
  constructor
  · intro hov hver
    apply SaveDashboard_of_error
    unfold saveBody
    have h1 : checkExisting db cmd cmd.dashboard = .error (.pluginDashboard E.pluginId) := by
      unfold checkExisting checkPlugin
      simp [hid, hE, hov, hver, bne_iff_ne, hplug]
    rw [h1]
  · intro hov
    have h1 := checkExisting_overwrite_ok db cmd E hid hE hov
    obtain ⟨hEmem, hEid⟩ := find_id_mem db cmd.dashboard.id cmd.dashboard.orgId E hE
    cases hS : findDashBySlug db cmd.dashboard.orgId cmd.dashboard.slug with
    | none =>
      have h2 : checkSameTitle db cmd { cmd.dashboard with version := E.version } =
          .ok { cmd.dashboard with version := E.version } :=
        checkSameTitle_ok_no_adopt db cmd _ (fun S hS' => by
          have hS'' : findDashBySlug db cmd.dashboard.orgId cmd.dashboard.slug = some S := hS'
          rw [hS] at hS''
          exact Option.noConfusion hS'')
      have h3 := writeDashboard_update db
        (setHasAcl db { cmd.dashboard with version := E.version })
        (by rw [setHasAcl_id]; exact hid.ne')
        ⟨E, hEmem, by rw [setHasAcl_id]; exact hEid⟩
      exact ⟨_, _, (SaveDashboard_ok_iff db cmd _ _).mpr (saveBody_eq_of db cmd _ _ _ _ h1 h2 h3)⟩
    | some S =>
      have hS' : findDashBySlug db ({ cmd.dashboard with version := E.version } : Dashboard).orgId
          ({ cmd.dashboard with version := E.version } : Dashboard).slug = some S := hS
      by_cases hSid : cmd.dashboard.id = S.id
      · have h2 := checkSameTitle_found_self db cmd { cmd.dashboard with version := E.version } S
          hS' hSid
        have h3 := writeDashboard_update db
          (setHasAcl db { cmd.dashboard with version := E.version })
          (by rw [setHasAcl_id]; exact hid.ne')
          ⟨E, hEmem, by rw [setHasAcl_id]; exact hEid⟩
        exact ⟨_, _, (SaveDashboard_ok_iff db cmd _ _).mpr
          (saveBody_eq_of db cmd _ _ _ _ h1 h2 h3)⟩
      · have h2' := checkSameTitle_found_other db cmd { cmd.dashboard with version := E.version } S
          hS' hSid
        rw [hov, if_pos rfl] at h2'
        obtain ⟨hSmem, _⟩ := find_id_mem db cmd.dashboard.id cmd.dashboard.orgId E hE
        have hSmem' : S ∈ db.dashboards := List.mem_of_find?_eq_some hS
        by_cases hS0 : S.id = 0
        · have h3 := writeDashboard_insert db
            (setHasAcl db { cmd.dashboard with id := S.id, version := S.version })
            (by rw [setHasAcl_id]; exact hS0)
          exact ⟨_, _, (SaveDashboard_ok_iff db cmd _ _).mpr
            (saveBody_eq_of db cmd _ _ _ _ h1 h2' h3)⟩
        · have h3 := writeDashboard_update db
            (setHasAcl db { cmd.dashboard with id := S.id, version := S.version })
            (by rw [setHasAcl_id]; exact hS0)
            ⟨S, hSmem', by rw [setHasAcl_id]⟩
          exact ⟨_, _, (SaveDashboard_ok_iff db cmd _ _).mpr
            (saveBody_eq_of db cmd _ _ _ _ h1 h2' h3)⟩

/-- Witness for the amended C5: a matching-version non-overwrite save fails
with the plugin-protection error, and an overwrite save of the same stored
dashboard succeeds. -/
theorem save_plugin_guard_witness :
    ((ex5CmdMatch.dashboard.id > 0) ∧
     findDashById ex5Db ex5CmdMatch.dashboard.id ex5CmdMatch.dashboard.orgId = some ex5E ∧
     ex5E.pluginId ≠ "" ∧ ex5CmdMatch.overwrite = false ∧
     ex5CmdMatch.dashboard.version = ex5E.version ∧
     SaveDashboard ex5Db ex5CmdMatch = (.error (.pluginDashboard ex5E.pluginId), ex5Db)) ∧
    (ex5CmdOv.overwrite = true ∧
     ∃ res db', SaveDashboard ex5Db ex5CmdOv = (.ok res, db')) :=
  ⟨⟨by decide, by decide, by decide, rfl, rfl,
    (save_plugin_guard ex5Db ex5CmdMatch ex5E (by decide) (by decide) (by decide)).1 rfl rfl⟩,
   ⟨rfl, (save_plugin_guard ex5Db ex5CmdOv ex5E (by decide) (by decide) (by decide)).2 rfl⟩⟩

theorem countP_update_unique (l : List Dashboard) (S res : Dashboard) (p : Dashboard → Bool)
    (hmem : S ∈ l) (hpw : l.Pairwise (fun a b => a.id ≠ b.id))
    (hres : p res = true) (hother : ∀ r ∈ l, r ≠ S → p r = false) :
    (l.map (fun r => if r.id == S.id then res else r)).countP p = 1 := by
  induction l with
  | nil => cases hmem
  | cons a t ih =>
    rw [List.pairwise_cons] at hpw
    obtain ⟨ha, hpt⟩ := hpw
    rcases List.mem_cons.mp hmem with rfl | hmemt
    · rw [List.map_cons, if_pos (by simp)]
      rw [List.countP_cons, if_pos hres]
      have hz : (t.map (fun r => if r.id == S.id then res else r)).countP p = 0 := by
        rw [List.countP_eq_zero]
        intro x hx
        obtain ⟨r, hr, hfr⟩ := List.mem_map.mp hx
        have hrid : r.id ≠ S.id := fun heq => ha r hr heq.symm
        rw [if_neg (by simp [hrid])] at hfr
        subst hfr
        have hrS : r ≠ S := fun heq => hrid (by rw [heq])
        simp [hother r (List.mem_cons_of_mem S hr) hrS]
      rw [hz]
    · have haid : a.id ≠ S.id := ha S hmemt
      rw [List.map_cons, if_neg (by simp [haid])]
      rw [List.countP_cons]
      have hpa : p a = false := hother a (List.mem_cons_self a t)
        (fun heq => haid (by rw [heq]))
      rw [hpa]
      simp only [Bool.false_eq_true, if_false, add_zero]
      exact ih hmemt hpt (fun r hr hne => hother r (List.mem_cons_of_mem a hr) hne)

/-- C6 counterexample: the candidate (id 1) declares a stale version and its
slug belongs to the stored row id 2; without overwrite the save fails with
the version-mismatch error, not the duplicate-title error the claim
requires for every such save. -/
theorem slug_collision_preempted_by_version_conflict :
    findDashBySlug ex6Db ex6Cmd.dashboard.orgId ex6Cmd.dashboard.slug = some ex6B ∧
    ex6B.id ≠ ex6Cmd.dashboard.id ∧ ex6Cmd.overwrite = false ∧
    SaveDashboard ex6Db ex6Cmd = (.error .versionMismatch, ex6Db) ∧
    SaveError.versionMismatch ≠ SaveError.sameNameExists :=
  ⟨by decide, by decide, rfl, rfl, by decide⟩

/-- C6 (amended): for a save whose candidate has id 0 and whose slug already
belongs to a stored row `S` (of nonzero id) in the same org: without
overwrite it fails with the duplicate-title error; with overwrite it adopts
`S`'s id and version and updates that row in place, so that — when ids are
unique and `S` was the only row with that slug in the org — exactly one row
with that slug remains. -/
theorem save_slug_collision (db : DB) (cmd : SaveDashboardCommand) (S : Dashboard)
    (hid : cmd.dashboard.id = 0)
    (hS : findDashBySlug db cmd.dashboard.orgId cmd.dashboard.slug = some S)
    (hS0 : S.id ≠ 0) :
    (cmd.overwrite = false → SaveDashboard db cmd = (.error .sameNameExists, db)) ∧
    (cmd.overwrite = true →
      ∃ res db', SaveDashboard db cmd = (.ok res, db') ∧
        res.id = S.id ∧ res.version = S.version + 1 ∧
        (db.dashboards.Pairwise (fun a b => a.id ≠ b.id) →
         (∀ r ∈ db.dashboards, r.orgId = cmd.dashboard.orgId → r.slug = cmd.dashboard.slug →
           r = S) →
         db'.dashboards.countP
           (fun r => r.orgId == cmd.dashboard.orgId && r.slug == cmd.dashboard.slug) = 1)) := by
  have h1 := checkExisting_ok_of_id_zero db cmd cmd.dashboard hid
  have hne : cmd.dashboard.id ≠ S.id := by rw [hid]; exact fun heq => hS0 heq.symm
  have h2' := checkSameTitle_found_other db cmd cmd.dashboard S hS hne
  constructor
  · intro hov
    rw [hov] at h2'
    simp only [Bool.false_eq_true, if_false] at h2'
    apply SaveDashboard_of_error
    unfold saveBody
    simp [h1, h2']
  · intro hov
    rw [hov, if_pos rfl] at h2'
    have hSmem : S ∈ db.dashboards := List.mem_of_find?_eq_some hS
    have h3 := writeDashboard_update db
      (setHasAcl db { cmd.dashboard with id := S.id, version := S.version })
      (by rw [setHasAcl_id]; exact hS0)
      ⟨S, hSmem, by rw [setHasAcl_id]⟩
    refine ⟨_, _, (SaveDashboard_ok_iff db cmd _ _).mpr
      (saveBody_eq_of db cmd _ _ _ _ h1 h2' h3), ?_, ?_, ?_⟩
    · rw [updatedRow_id, setHasAcl_id]
    · rw [updatedRow_version, setHasAcl_version]
    · intro hpw huniq
      rw [postWrite_dashboards]
      show (updatedRows db _).countP _ = 1
      unfold updatedRows
      simp only [setHasAcl_id]
      apply countP_update_unique db.dashboards S _ _ hSmem hpw
      · show ((updatedRow (setHasAcl db { cmd.dashboard with id := S.id, version := S.version })).orgId
            == cmd.dashboard.orgId &&
          (updatedRow (setHasAcl db { cmd.dashboard with id := S.id, version := S.version })).slug
            == cmd.dashboard.slug) = true
        have ho := setHasAcl_orgId db { cmd.dashboard with id := S.id, version := S.version }
        have hs := setHasAcl_slug db { cmd.dashboard with id := S.id, version := S.version }
        simp only [updatedRow]
        simp [ho, hs]
      · intro r hr hrne
        have := huniq r hr
        by_cases horg : r.orgId = cmd.dashboard.orgId
        · by_cases hslug : r.slug = cmd.dashboard.slug
          · exact absurd (this horg hslug) hrne
          · simp [hslug]
        · simp [horg]

/-- Witness for the amended C6: the colliding id-0 candidate fails without
overwrite, and with overwrite takes over row id 2 at version 4. -/
theorem save_slug_collision_witness :
    (ex6CmdNew.dashboard.id = 0 ∧
     findDashBySlug ex6Db ex6CmdNew.dashboard.orgId ex6CmdNew.dashboard.slug = some ex6B ∧
     ex6B.id ≠ 0 ∧
     SaveDashboard ex6Db ex6CmdNew = (.error .sameNameExists, ex6Db)) ∧
    (∃ res db', SaveDashboard ex6Db ex6CmdNewOv = (.ok res, db') ∧
       res.id = ex6B.id ∧ res.version = ex6B.version + 1 ∧
       (ex6Db.dashboards.Pairwise (fun a b => a.id ≠ b.id) →
        (∀ r ∈ ex6Db.dashboards, r.orgId = ex6CmdNewOv.dashboard.orgId →
          r.slug = ex6CmdNewOv.dashboard.slug → r = ex6B) →
        db'.dashboards.countP (fun r => r.orgId == ex6CmdNewOv.dashboard.orgId &&
          r.slug == ex6CmdNewOv.dashboard.slug) = 1)) :=
  ⟨⟨rfl, by decide, by decide,
    (save_slug_collision ex6Db ex6CmdNew ex6B rfl (by decide) (by decide)).1 rfl⟩,
   (save_slug_collision ex6Db ex6CmdNewOv ex6B rfl (by decide) (by decide)).2 rfl⟩

theorem runDeletes_none (dashId : Int) (db : DB) :
    runDeletes dashId (fun _ => none) db = .ok (deletedState dashId db) := rfl

/-- C8 counterexample: deleting the folder (id 1) succeeds and removes both
canonical rows, yet the child's (id 2) tag row and version-history row are
still present afterwards — the claim's "none of these records remain"
fails. -/
theorem delete_folder_orphans_child_records :
    ex8C.folderId = ex8D.id ∧ ex8C ∈ ex8Db.dashboards ∧
    DeleteDashboard ex8Db ex8Cmd (fun _ => none) none = (.ok (), ex8Db') ∧
    (⟨2, "a"⟩ : DashboardTag) ∈ ex8Db'.tags ∧ (2 : Int) = ex8C.id ∧
    (∃ v ∈ ex8Db'.versions, v.dashboardId = ex8C.id) :=
  ⟨rfl, by decide, rfl, by decide, rfl, by decide⟩

/-- C8 (amended): a successful delete of dashboard D removes, in one call,
D's canonical row and every canonical row whose `folderId` is D's id,
together with D's own tag rows and D's own version-history rows; tag and
version-history rows of the deleted children are kept (only rows keyed by
D's id are deleted). -/
theorem delete_folder_scope (db : DB) (cmd : DeleteDashboardCommand) (D : Dashboard)
    (hD : findDashById db cmd.id cmd.orgId = some D) :
    ∃ db', DeleteDashboard db cmd (fun _ => none) none = (.ok (), db') ∧
      (∀ r ∈ db'.dashboards, r.id ≠ D.id ∧ r.folderId ≠ D.id) ∧
      (∀ r ∈ db.dashboards, r.id ≠ D.id → r.folderId ≠ D.id → r ∈ db'.dashboards) ∧
      (∀ t ∈ db'.tags, t.dashboardId ≠ D.id) ∧
      (∀ t ∈ db.tags, t.dashboardId ≠ D.id → t ∈ db'.tags) ∧
      (∀ v ∈ db'.versions, v.dashboardId ≠ D.id) ∧
      (∀ v ∈ db.versions, v.dashboardId ≠ D.id → v ∈ db'.versions) := by
  refine ⟨deletedState D.id db, ?_, ?_, ?_, ?_, ?_, ?_, ?_⟩
  · unfold DeleteDashboard
    simp [hD, runDeletes_none]
  · intro r hr
    unfold deletedState at hr
    simp only [List.mem_filter, bne_iff_ne] at hr
    exact ⟨hr.1.2, hr.2⟩
  · intro r hr h1 h2
    unfold deletedState
    simp only [List.mem_filter, bne_iff_ne]
    exact ⟨⟨hr, h1⟩, h2⟩
  · intro t ht
    unfold deletedState at ht
    simp only [List.mem_filter, bne_iff_ne] at ht
    exact ht.2
  · intro t ht h1
    unfold deletedState
    simp only [List.mem_filter, bne_iff_ne]
    exact ⟨ht, h1⟩
  · intro v hv
    unfold deletedState at hv
    simp only [List.mem_filter, bne_iff_ne] at hv
    exact hv.2
  · intro v hv h1
    unfold deletedState
    simp only [List.mem_filter, bne_iff_ne]
    exact ⟨hv, h1⟩

/-- Witness for the amended C8 at the concrete folder-with-child store. -/
theorem delete_folder_scope_witness :
    findDashById ex8Db ex8Cmd.id ex8Cmd.orgId = some ex8D ∧
    (∃ db', DeleteDashboard ex8Db ex8Cmd (fun _ => none) none = (.ok (), db') ∧
      (∀ r ∈ db'.dashboards, r.id ≠ ex8D.id ∧ r.folderId ≠ ex8D.id) ∧
      (∀ r ∈ ex8Db.dashboards, r.id ≠ ex8D.id → r.folderId ≠ ex8D.id → r ∈ db'.dashboards) ∧
      (∀ t ∈ db'.tags, t.dashboardId ≠ ex8D.id) ∧
      (∀ t ∈ ex8Db.tags, t.dashboardId ≠ ex8D.id → t ∈ db'.tags) ∧
      (∀ v ∈ db'.versions, v.dashboardId ≠ ex8D.id) ∧
      (∀ v ∈ ex8Db.versions, v.dashboardId ≠ ex8D.id → v ∈ db'.versions)) :=
  ⟨by decide, delete_folder_scope ex8Db ex8Cmd ex8D (by decide)⟩

/-- C9 (confirmed): for a delete of an existing dashboard, a failure of the
alert-definition cleanup hook is swallowed — the call still returns success
with the same final state as a delete whose hook succeeds — whereas a
failure of any of the six delete statements (the first failing one) aborts
the call with that database error and leaves the store unchanged. -/
theorem delete_swallows_hook_failure (db : DB) (cmd : DeleteDashboardCommand) (D : Dashboard)
    (hD : findDashById db cmd.id cmd.orgId = some D) :
    (∀ e, (DeleteDashboard db cmd (fun _ => none) (some e)).1 = .ok () ∧
       DeleteDashboard db cmd (fun _ => none) (some e) =
         DeleteDashboard db cmd (fun _ => none) none) ∧
    (∀ (stmtErr : Nat → Option String) (hookErr : Option String) (i : Nat) (msg : String),
       i < 6 → stmtErr i = some msg → (∀ j, j < i → stmtErr j = none) →
       DeleteDashboard db cmd stmtErr hookErr = (.error (.dbError msg), db)) := by
  constructor
  · intro e
    unfold DeleteDashboard
    simp [hD, runDeletes_none]
  · intro stmtErr hookErr i msg hi herr hprev
    unfold DeleteDashboard
    have hrun : runDeletes D.id stmtErr db = .error (.dbError msg) := by
      interval_cases i
      · simp [runDeletes, runDeletesAux, herr]
      · simp [runDeletes, runDeletesAux, hprev 0 (by omega), herr]
      · simp [runDeletes, runDeletesAux, hprev 0 (by omega), hprev 1 (by omega), herr]
      · simp [runDeletes, runDeletesAux, hprev 0 (by omega), hprev 1 (by omega),
          hprev 2 (by omega), herr]
      · simp [runDeletes, runDeletesAux, hprev 0 (by omega), hprev 1 (by omega),
          hprev 2 (by omega), hprev 3 (by omega), herr]
      · simp [runDeletes, runDeletesAux, hprev 0 (by omega), hprev 1 (by omega),
          hprev 2 (by omega), hprev 3 (by omega), hprev 4 (by omega), herr]
    simp [hD, hrun]

/-- Witness for C9 at the concrete folder store: the hook fails with "boom"
yet the delete succeeds; an injected failure of statement 2 aborts. -/
theorem delete_swallows_hook_failure_witness :
    findDashById ex8Db ex8Cmd.id ex8Cmd.orgId = some ex8D ∧
    ((∀ e, (DeleteDashboard ex8Db ex8Cmd (fun _ => none) (some e)).1 = .ok () ∧
       DeleteDashboard ex8Db ex8Cmd (fun _ => none) (some e) =
         DeleteDashboard ex8Db ex8Cmd (fun _ => none) none) ∧
     (∀ (stmtErr : Nat → Option String) (hookErr : Option String) (i : Nat) (msg : String),
       i < 6 → stmtErr i = some msg → (∀ j, j < i → stmtErr j = none) →
       DeleteDashboard ex8Db ex8Cmd stmtErr hookErr = (.error (.dbError msg), ex8Db))) :=
  ⟨by decide, delete_swallows_hook_failure ex8Db ex8Cmd ex8D (by decide)⟩

end Grafana
